import Mathlib

/-!
Verification of the Creality K1 Home Assistant integration
(`custom_component/creality_k1`), centred on the WebSocket connection
supervisor in `websocket.py`, the message codec / state cache in
`MyWebSocket.handle_message`, and the polling adapter in `coordinator.py`.

Python values, dictionaries and exception flow are embedded shallowly:

* a JSON value decoded by `json.loads` is a `PyVal`;
* a Python `dict` keyed by strings is an association list `PyDict`
  (keys unique in practice; `dict.update` / item assignment are modelled
  by `dictUpdate` / `dictSet` with first-occurrence replacement, which
  coincides with Python semantics on unique-key dictionaries);
* `json.loads` itself is library code, so it enters as a parameter
  `L : String → JsonLoadResult`; concrete decoders instantiate it in
  witnesses;
* a Python block that may raise is a `Except PyExc` value, and each
  `except` clause of the source is a `match` arm on the error.
-/

/-- Exceptions that the embedded fragments of the source can raise. -/
inductive PyExc where
  | jsonDecodeError
  | attributeError
  | connectionClosed
  | otherException
  deriving DecidableEq, Repr

/-- Decoded JSON values as produced by `json.loads`. -/
inductive PyVal where
  | str : String → PyVal
  | num : Int → PyVal
  | boolean : Bool → PyVal
  | null : PyVal
  | arr : List PyVal → PyVal
  | obj : List (String × PyVal) → PyVal

/-- A Python dictionary with string keys, in insertion order. -/
abbrev PyDict := List (String × PyVal)

/-- Item assignment `d[k] = v` on a Python dict: replace the value at the
first occurrence of `k`, or append `(k, v)` when `k` is absent. -/
def dictSet : PyDict → String → PyVal → PyDict
  | [], k, v => [(k, v)]
  | p :: ps, k, v => if p.1 == k then (k, v) :: ps else p :: dictSet ps k v

/-- `d.update(new)` on Python dicts: assign every pair of `new` in order. -/
def dictUpdate (d new : PyDict) : PyDict :=
  new.foldl (fun acc p => dictSet acc p.1 p.2) d

/-- `d.get(k)` on a Python dict (`None` when the key is absent). -/
def dictGet : PyDict → String → Option PyVal
  | [], _ => Option.none
  | p :: ps, k => if p.1 == k then some p.2 else dictGet ps k

/-- Python `message.strip().lower()` (ASCII case folding suffices here),
computed over the character list so that it evaluates by reduction. -/
def pyStripLower (s : String) : String :=
  String.mk (((s.data.dropWhile Char.isWhitespace).reverse.dropWhile
    Char.isWhitespace).reverse.map Char.toLower)

/-- Outcome of `json.loads` on a text frame. -/
inductive JsonLoadResult where
  | ok : PyVal → JsonLoadResult
  | decodeError : JsonLoadResult

/-- Constant `MSG_TYPE_HEARTBEAT` from `const.py` line 9. -/
def MSG_TYPE_HEARTBEAT : String := "heart_beat"

/-- Constant `HEARTBEAT_INTERVAL` from `const.py` line 10. -/
def HEARTBEAT_INTERVAL : Nat := 5

/-- Constant `HEARTBEAT_TIMEOUT` from `const.py` line 11. -/
def HEARTBEAT_TIMEOUT : Nat := 1

/-- Modelled from the spec: `RECONNECT_INTERVAL` is imported by
`websocket.py` line 8 and used at lines 269 and 276, but `const.py` in the
source tree does not define it.  The spec fixes the reconnect backoff at
5 seconds ("wait a fixed backoff interval (5s in reference)"). -/
def RECONNECT_INTERVAL : Nat := 5

/-- Python `data.get("ModeCode") == MSG_TYPE_HEARTBEAT`: true exactly when
the value is the string `"heart_beat"` (a missing key yields `None`, which
is never equal to a string in Python). -/
def isHeartBeatVal : Option PyVal → Bool
  | some (PyVal.str s) => s == MSG_TYPE_HEARTBEAT
  | _ => false

/-- The `try` block of `MyWebSocket.handle_message` (`websocket.py`
lines 186-197): decode the frame, return unchanged data on a heartbeat
echo, merge a decoded object into the stored data.  `json.loads` raising
is `jsonDecodeError`; `data.get` on a non-dict top level (list, string,
number, bool, null) raises `AttributeError` before any state change. -/
def handle_messageTry (L : String → JsonLoadResult) (data : PyDict)
    (message : String) : Except PyExc PyDict :=
  match L message with
  | JsonLoadResult.decodeError => Except.error PyExc.jsonDecodeError
  | JsonLoadResult.ok v =>
    match v with
    | PyVal.obj d =>
      if isHeartBeatVal (dictGet d ("ModeCode")) then Except.ok data
      else Except.ok (dictUpdate data d)
    | _ => Except.error PyExc.attributeError

/-- `MyWebSocket.handle_message` (`websocket.py` lines 175-203) acting on
the stored `_latest_raw_data`.  The "ok" acknowledgement is recognised
first; the `except json.JSONDecodeError` clause (line 199) and the
catch-all `except Exception` clause (line 202) both log and leave the
data unchanged, so no exception ever escapes to the caller. -/
def handle_message (L : String → JsonLoadResult) (data : PyDict)
    (message : String) : Except PyExc PyDict :=
  if pyStripLower message == "ok" then Except.ok data
  else
    match handle_messageTry L data message with
    | Except.ok d => Except.ok d
    | Except.error PyExc.jsonDecodeError => Except.ok data
    | Except.error _ => Except.ok data

/-- The snapshot after `handle_message` (which never propagates an
exception; the error arm is unreachable). -/
def runHandle (L : String → JsonLoadResult) (data : PyDict)
    (message : String) : PyDict :=
  match handle_message L data message with
  | Except.ok d => d
  | Except.error _ => data

/-- Snapshot after a sequence of inbound text frames is processed by
`handle_message` in order. -/
def processFrames (L : String → JsonLoadResult) (data : PyDict)
    (msgs : List String) : PyDict :=
  msgs.foldl (runHandle L) data

/-- Written from the spec's words for the refinement claim: the decoded
dictionary of a data frame — `none` for the "ok" token, for frames that
fail to decode, for non-object JSON, and for heartbeat echoes. -/
def dataFrameDict (L : String → JsonLoadResult) (m : String) :
    Option PyDict :=
  if pyStripLower m == "ok" then Option.none
  else
    match L m with
    | JsonLoadResult.ok (PyVal.obj d) =>
      if isHeartBeatVal (dictGet d ("ModeCode")) then Option.none else some d
    | _ => Option.none

/-- Written from the spec's words: the shallow, last-write-wins per-key
merge of all successfully decoded JSON object frames in order, excluding
heartbeat echoes and the "ok" token. -/
def specMerge (L : String → JsonLoadResult) (data : PyDict)
    (msgs : List String) : PyDict :=
  (msgs.filterMap (dataFrameDict L)).foldl dictUpdate data

/-- A concrete decoder standing in for `json.loads` on the frames used by
the scenario witnesses (the literal braces of the JSON texts are written
with hexadecimal escapes). -/
def demoLoads : String → JsonLoadResult := fun m =>
  if m == "\x7b\"nozzleTemp\": 210, \"bedTemp0\": 60\x7d" then
    JsonLoadResult.ok (PyVal.obj
      [("nozzleTemp", PyVal.num 210), ("bedTemp0", PyVal.num 60)])
  else if m == "\x7b\"bedTemp0\": 61\x7d" then
    JsonLoadResult.ok (PyVal.obj [("bedTemp0", PyVal.num 61)])
  else if m == "\x7b\"ModeCode\": \"heart_beat\", \"msg\": 1\x7d" then
    JsonLoadResult.ok (PyVal.obj
      [("ModeCode", PyVal.str ("heart_beat")), ("msg", PyVal.num 1)])
  else if m == "[1, 2]" then
    JsonLoadResult.ok (PyVal.arr [PyVal.num 1, PyVal.num 2])
  else if m == "5" then JsonLoadResult.ok (PyVal.num 5)
  else JsonLoadResult.decodeError

-- Helper lemmas for the codec.

theorem runHandle_eq_dataFrame (L : String → JsonLoadResult) (data : PyDict)
    (m : String) :
    runHandle L data m =
      match dataFrameDict L m with
      | Option.none => data
      | some d => dictUpdate data d := by
  unfold runHandle handle_message handle_messageTry dataFrameDict
  by_cases hok : pyStripLower m == "ok"
  · simp [hok]
  · simp only [hok, if_false, Bool.false_eq_true]
    cases L m with
    | decodeError => simp
    | ok v =>
      cases v with
      | obj d =>
        by_cases hb : isHeartBeatVal (dictGet d ("ModeCode")) <;> simp [hb]
      | str s => simp
      | num n => simp
      | boolean b => simp
      | null => simp
      | arr l => simp

theorem processFrames_eq_specMerge (L : String → JsonLoadResult)
    (msgs : List String) (data : PyDict) :
    processFrames L data msgs = specMerge L data msgs := by
  induction msgs generalizing data with
  | nil => rfl
  | cons m ms ih =>
    unfold processFrames specMerge at *
    simp only [List.foldl_cons, List.filterMap_cons]
    rw [runHandle_eq_dataFrame]
    cases h : dataFrameDict L m with
    | none => simpa using ih data
    | some d => simpa using ih (dictUpdate data d)

theorem dictGet_dictSet_ne (d : PyDict) (k k' : String) (v : PyVal)
    (h : k' ≠ k) : dictGet (dictSet d k' v) k = dictGet d k := by
  induction d with
  | nil => simp [dictSet, dictGet, h]
  | cons p ps ih =>
    unfold dictSet
    by_cases hp : p.1 == k'
    · simp only [hp, if_true]
      unfold dictGet
      have hkk : (k' == k) = false := by simpa using h
      have hpk : (p.1 == k) = false := by
        have : p.1 = k' := by simpa using hp
        simpa [this] using h
      simp [hkk, hpk]
    · simp only [hp, if_false, Bool.false_eq_true]
      unfold dictGet
      by_cases hq : p.1 == k <;> simp [hq, ih]

theorem dictGet_dictSet_self (d : PyDict) (k : String) (v : PyVal) :
    dictGet (dictSet d k v) k = some v := by
  induction d with
  | nil => simp [dictSet, dictGet]
  | cons p ps ih =>
    unfold dictSet
    by_cases hp : p.1 == k
    · simp [hp, dictGet]
    · simp [hp, dictGet, ih]

theorem dictGet_dictUpdate_absent (d : PyDict) (new : PyDict) (k : String)
    (h : ∀ p ∈ new, p.1 ≠ k) :
    dictGet (dictUpdate d new) k = dictGet d k := by
  induction new generalizing d with
  | nil => rfl
  | cons p ps ih =>
    unfold dictUpdate at *
    simp only [List.foldl_cons]
    rw [ih (dictSet d p.1 p.2) (fun q hq => h q (List.mem_cons_of_mem p hq))]
    exact dictGet_dictSet_ne d k p.1 p.2 (h p (List.mem_cons_self p ps))

theorem dictUpdate_append (d : PyDict) (n1 n2 : PyDict) :
    dictUpdate d (n1 ++ n2) = dictUpdate (dictUpdate d n1) n2 := by
  unfold dictUpdate
  exact List.foldl_append _ _ _ _

/-- C1: for every sequence of inbound text frames processed by
`handle_message`, the resulting snapshot equals the shallow,
last-write-wins per-key merge of all successfully decoded JSON object
frames in order, excluding heartbeat echoes (`ModeCode == "heart_beat"`)
and the literal "ok" acknowledgement; a key absent from an update keeps
its previous value, and the final write to a key within an update wins. -/
theorem C1_snapshot_is_shallow_merge :
    (∀ (L : String → JsonLoadResult) (data : PyDict) (msgs : List String),
      processFrames L data msgs = specMerge L data msgs) ∧
    (∀ (d new : PyDict) (k : String), (∀ p ∈ new, p.1 ≠ k) →
      dictGet (dictUpdate d new) k = dictGet d k) ∧
    (∀ (d new : PyDict) (k : String) (v : PyVal),
      dictGet (dictUpdate d (new ++ [(k, v)])) k = some v) := by
  refine ⟨fun L data msgs => processFrames_eq_specMerge L msgs data,
          fun d new k h => dictGet_dictUpdate_absent d new k h,
          fun d new k v => ?_⟩
  rw [dictUpdate_append]
  exact dictGet_dictSet_self _ k v

/-- Witness for C1, covering the spec's Scenario C:
`{"nozzleTemp": 210, "bedTemp0": 60}` followed by `{"bedTemp0": 61}`
(sent between an "ok" token and a heartbeat echo) yields snapshot
`{"nozzleTemp": 210, "bedTemp0": 61}`. -/
theorem C1_snapshot_is_shallow_merge_witness :
    processFrames demoLoads []
        ["ok", "\x7b\"nozzleTemp\": 210, \"bedTemp0\": 60\x7d",
         "\x7b\"bedTemp0\": 61\x7d",
         "\x7b\"ModeCode\": \"heart_beat\", \"msg\": 1\x7d"] =
      specMerge demoLoads []
        ["ok", "\x7b\"nozzleTemp\": 210, \"bedTemp0\": 60\x7d",
         "\x7b\"bedTemp0\": 61\x7d",
         "\x7b\"ModeCode\": \"heart_beat\", \"msg\": 1\x7d"] ∧
    processFrames demoLoads []
        ["ok", "\x7b\"nozzleTemp\": 210, \"bedTemp0\": 60\x7d",
         "\x7b\"bedTemp0\": 61\x7d",
         "\x7b\"ModeCode\": \"heart_beat\", \"msg\": 1\x7d"] =
      [("nozzleTemp", PyVal.num 210), ("bedTemp0", PyVal.num 61)] ∧
    dictGet (dictUpdate [("nozzleTemp", PyVal.num 210)]
        [("bedTemp0", PyVal.num 61)]) ("nozzleTemp") =
      some (PyVal.num 210) := by
  refine ⟨C1_snapshot_is_shallow_merge.1 demoLoads []
      ["ok", "\x7b\"nozzleTemp\": 210, \"bedTemp0\": 60\x7d",
       "\x7b\"bedTemp0\": 61\x7d",
       "\x7b\"ModeCode\": \"heart_beat\", \"msg\": 1\x7d"], by rfl, ?_⟩
  exact C1_snapshot_is_shallow_merge.2.1 [("nozzleTemp", PyVal.num 210)]
    [("bedTemp0", PyVal.num 61)] ("nozzleTemp") (by decide)

/-!
State of a `MyWebSocket` instance (`websocket.py` lines 17-27).  The
socket, the two background tasks and the Home Assistant handle are
modelled by presence booleans; the connection outcome of the single
`websockets.connect` call inside `connect_and_start_tasks` is supplied
as an explicit parameter, since the network is external to the code.
-/

/-- Fields of a `MyWebSocket` instance set in `__init__`
(`websocket.py` lines 17-27). -/
structure WSState where
  ws : Bool
  heartbeat_task : Bool
  receive_task : Bool
  _is_connected : Bool
  _latest_raw_data : PyDict
  hass : Bool
  _shutting_down : Bool

/-- Outcome of the `await websockets.connect(...)` call bounded by
`asyncio.wait_for` (`websocket.py` lines 57-60): success, one of the
typed errors caught at line 71 (`asyncio.TimeoutError`,
`websockets.exceptions.WebSocketException`, `OSError`), or any other
unexpected exception (line 81). -/
inductive ConnectOutcome where
  | success
  | typedError
  | unexpectedError
  deriving DecidableEq

/-- What `connect_and_start_tasks` does for its caller: return `True`,
return `False`, or raise `ConnectionError`. -/
inductive ConnectResult where
  | returnedTrue
  | returnedFalse
  | raisedConnectionError
  deriving DecidableEq

/-- Connection timeout passed to `asyncio.wait_for` in
`connect_and_start_tasks` (`websocket.py` line 59). -/
def connectTimeoutSeconds : Nat := 10

/-- `MyWebSocket._cleanup_connection_resources` (`websocket.py`
lines 88-116): cancel and drop both tasks, close and drop the socket,
reset `_is_connected`. -/
def _cleanup_connection_resources (s : WSState) : WSState :=
  { s with heartbeat_task := false, receive_task := false,
           ws := false, _is_connected := false }

/-- `MyWebSocket.connect_and_start_tasks` (`websocket.py` lines 36-85):
already connected → return `True` unchanged; shutting down → return
`False` unchanged; otherwise clean up stale resources, then attempt the
socket with a 10 second timeout.  On success set `_is_connected` and
start both background tasks, returning `True`; on a typed error or any
unexpected error leave `_is_connected = False` and raise
`ConnectionError` (lines 71-85).  The function makes exactly one
attempt; it never retries internally. -/
def connect_and_start_tasks (s : WSState) (o : ConnectOutcome) :
    WSState × ConnectResult :=
  if s._is_connected then (s, ConnectResult.returnedTrue)
  else if s._shutting_down then (s, ConnectResult.returnedFalse)
  else
    let s1 := _cleanup_connection_resources s
    match o with
    | ConnectOutcome.success =>
      ({ s1 with ws := true, _is_connected := true,
                 heartbeat_task := true, receive_task := true },
       ConnectResult.returnedTrue)
    | ConnectOutcome.typedError => (s1, ConnectResult.raisedConnectionError)
    | ConnectOutcome.unexpectedError =>
      (s1, ConnectResult.raisedConnectionError)

/-- `MyWebSocket.clear` (`websocket.py` lines 283-288): set the shutdown
flag, then clean up the connection resources. -/
def clear (s : WSState) : WSState :=
  _cleanup_connection_resources { s with _shutting_down := true }

/-- `MyWebSocket._schedule_reconnect` (`websocket.py` lines 228-238).
The boolean reports whether a reconnect task was created
(`asyncio.create_task` at line 236): it is not when shutting down, and
not when no `hass` instance is available. -/
def _schedule_reconnect (s : WSState) : WSState × Bool :=
  if s._shutting_down then (s, false)
  else if s.hass then (s, true)
  else (s, false)

/-- `MyWebSocket._handle_disconnect` (`websocket.py` lines 221-226):
when currently marked connected, mark disconnected and schedule a
reconnect; otherwise do nothing.  The boolean reports whether a
reconnect task was scheduled. -/
def _handle_disconnect (s : WSState) : WSState × Bool :=
  if s._is_connected then
    _schedule_reconnect { s with _is_connected := false }
  else (s, false)

/-- Outcome of the `await self.ws.send(...)` call inside `send_message`
(`websocket.py` line 212). -/
inductive SendOutcome where
  | sent
  | connectionClosed
  | otherError
  deriving DecidableEq

/-- The `try` body of `send_message`: the send either completes or
raises. -/
def send_messageTry (s : WSState) (o : SendOutcome) : Except PyExc WSState :=
  match o with
  | SendOutcome.sent => Except.ok s
  | SendOutcome.connectionClosed => Except.error PyExc.connectionClosed
  | SendOutcome.otherError => Except.error PyExc.otherException

/-- `MyWebSocket.send_message` (`websocket.py` lines 205-219): a no-op
with a logged warning when not connected or the socket is gone; on a
raised `ConnectionClosed` (line 214) or any other exception (line 217)
the handler calls `_handle_disconnect` instead of re-raising, so the
function always returns normally.  The boolean reports whether a
reconnect task was scheduled. -/
def send_message (s : WSState) (o : SendOutcome) : WSState × Bool :=
  if !(s._is_connected && s.ws) then (s, false)
  else
    match send_messageTry s o with
    | Except.ok s' => (s', false)
    | Except.error PyExc.connectionClosed => _handle_disconnect s
    | Except.error _ => _handle_disconnect s

/-- A step of `_receive_messages_loop` for one successfully received text
frame (`websocket.py` lines 146-169): the frame is passed to
`handle_message`; an exception escaping `handle_message` would be caught
by the `except Exception` clause at line 166, which disconnects and
breaks the loop.  The boolean reports whether the loop broke. -/
def receiveFrameStep (L : String → JsonLoadResult) (s : WSState)
    (msg : String) : WSState × Bool :=
  match handle_message L s._latest_raw_data msg with
  | Except.ok d => ({ s with _latest_raw_data := d }, false)
  | Except.error _ => ((_handle_disconnect s).1, true)

/-- C3: `connect_and_start_tasks` when already connected is a no-op that
reports success; otherwise (when not shutting down) it makes a single
attempt bounded by a 10 second timeout: on success it sets
`_is_connected` and starts the heartbeat and receive tasks, and on any
failure it leaves `_is_connected = False`, leaves both tasks stopped,
and raises `ConnectionError` instead of retrying. -/
theorem C3_connect_contract :
    connectTimeoutSeconds = 10 ∧
    (∀ (s : WSState) (o : ConnectOutcome), s._is_connected = true →
      connect_and_start_tasks s o = (s, ConnectResult.returnedTrue)) ∧
    (∀ (s : WSState), s._is_connected = false → s._shutting_down = false →
      (connect_and_start_tasks s ConnectOutcome.success).2 =
        ConnectResult.returnedTrue ∧
      (connect_and_start_tasks s ConnectOutcome.success).1._is_connected
        = true ∧
      (connect_and_start_tasks s ConnectOutcome.success).1.heartbeat_task
        = true ∧
      (connect_and_start_tasks s ConnectOutcome.success).1.receive_task
        = true ∧
      (connect_and_start_tasks s ConnectOutcome.success).1.ws = true) ∧
    (∀ (s : WSState) (o : ConnectOutcome), s._is_connected = false →
      s._shutting_down = false → o ≠ ConnectOutcome.success →
      (connect_and_start_tasks s o).2 =
        ConnectResult.raisedConnectionError ∧
      (connect_and_start_tasks s o).1._is_connected = false ∧
      (connect_and_start_tasks s o).1.heartbeat_task = false ∧
      (connect_and_start_tasks s o).1.receive_task = false) := by
  refine ⟨rfl, ?_, ?_, ?_⟩
  · intro s o h
    simp [connect_and_start_tasks, h]
  · intro s h hsd
    simp [connect_and_start_tasks, h, hsd, _cleanup_connection_resources]
  · intro s o h hsd ho
    cases o with
    | success => exact absurd rfl ho
    | typedError =>
      simp [connect_and_start_tasks, h, hsd, _cleanup_connection_resources]
    | unexpectedError =>
      simp [connect_and_start_tasks, h, hsd, _cleanup_connection_resources]

/-- Witness for C3 at a concrete disconnected, non-shutdown state. -/
theorem C3_connect_contract_witness :
    (connect_and_start_tasks
        ⟨false, false, false, false, [], true, false⟩
        ConnectOutcome.success).2 = ConnectResult.returnedTrue ∧
    (connect_and_start_tasks
        ⟨false, false, false, false, [], true, false⟩
        ConnectOutcome.typedError).2 =
      ConnectResult.raisedConnectionError ∧
    connect_and_start_tasks
        ⟨false, false, false, true, [], true, false⟩
        ConnectOutcome.typedError =
      (⟨false, false, false, true, [], true, false⟩,
        ConnectResult.returnedTrue) := by
  refine ⟨(C3_connect_contract.2.2.1
      ⟨false, false, false, false, [], true, false⟩ rfl rfl).1,
    (C3_connect_contract.2.2.2
      ⟨false, false, false, false, [], true, false⟩
      ConnectOutcome.typedError rfl rfl (by decide)).1,
    C3_connect_contract.2.1
      ⟨false, false, false, true, [], true, false⟩
      ConnectOutcome.typedError rfl⟩

/-- C6: `clear` is idempotent — applying it twice gives exactly the state
of applying it once — and the end state has the shutdown flag set, both
background tasks stopped, the socket closed, and `_is_connected = False`;
it is safe on an already disconnected state (it is total and only
resets the same fields). -/
theorem C6_clear_idempotent :
    ∀ (s : WSState),
      clear (clear s) = clear s ∧
      (clear s)._shutting_down = true ∧
      (clear s).heartbeat_task = false ∧
      (clear s).receive_task = false ∧
      (clear s).ws = false ∧
      (clear s)._is_connected = false ∧
      (clear s)._latest_raw_data = s._latest_raw_data := by
  intro s
  simp [clear, _cleanup_connection_resources]

/-- C8: `send_message` always returns to its caller (every raised
exception is handled by the clauses at lines 214 and 217).  When not
connected (or the socket is gone) it is a no-op: the state, including
the snapshot and the connected flag, is unchanged and nothing is
scheduled.  On a transport failure while connected it marks
`_is_connected = False` and — with a `hass` handle present and no
shutdown in progress — schedules a reconnect task rather than
propagating the error. -/
theorem C8_send_never_raises :
    (∀ (s : WSState) (o : SendOutcome),
      (s._is_connected && s.ws) = false → send_message s o = (s, false)) ∧
    (∀ (s : WSState) (o : SendOutcome), s._is_connected = true →
      s.ws = true → o ≠ SendOutcome.sent →
      (send_message s o).1._is_connected = false ∧
      (send_message s o).1._latest_raw_data = s._latest_raw_data ∧
      (s.hass = true → s._shutting_down = false →
        (send_message s o).2 = true)) ∧
    (∀ (s : WSState), s._is_connected = true → s.ws = true →
      send_message s SendOutcome.sent = (s, false)) := by
  refine ⟨?_, ?_, ?_⟩
  · intro s o h
    simp [send_message, h]
  · intro s o hc hw ho
    have hbody : send_message s o =
        _handle_disconnect s := by
      cases o with
      | sent => exact absurd rfl ho
      | connectionClosed => simp [send_message, hc, hw, send_messageTry]
      | otherError => simp [send_message, hc, hw, send_messageTry]
    rw [hbody]
    unfold _handle_disconnect _schedule_reconnect
    simp only [hc, if_true]
    by_cases hsd : s._shutting_down
    · simp [hsd]
    · by_cases hh : s.hass <;> simp [hsd, hh]
  · intro s hc hw
    simp [send_message, hc, hw, send_messageTry]

/-- Witness for C8: a disconnected send is a no-op, and a failing send on
a live connection flips the flag and schedules a reconnect. -/
theorem C8_send_never_raises_witness :
    send_message ⟨false, false, false, false, [], true, false⟩
        SendOutcome.sent =
      (⟨false, false, false, false, [], true, false⟩, false) ∧
    (send_message ⟨true, true, true, true, [], true, false⟩
        SendOutcome.connectionClosed).1._is_connected = false ∧
    (send_message ⟨true, true, true, true, [], true, false⟩
        SendOutcome.connectionClosed).2 = true := by
  refine ⟨C8_send_never_raises.1
      ⟨false, false, false, false, [], true, false⟩ SendOutcome.sent rfl,
    (C8_send_never_raises.2.1 ⟨true, true, true, true, [], true, false⟩
      SendOutcome.connectionClosed rfl rfl (by decide)).1,
    (C8_send_never_raises.2.1 ⟨true, true, true, true, [], true, false⟩
      SendOutcome.connectionClosed rfl rfl (by decide)).2.2 rfl rfl⟩

/-!
The persistent reconnect loop of `_reconnect_cooldown_and_attempt`
(`websocket.py` lines 241-281).  Each iteration of the `while` loop is
driven by one environment event: the outcome of the `connect_and_start_tasks`
call, an unexpected exception raised inside the loop body (caught by the
`except Exception` clause at line 271), or a concurrent `clear()` setting
the shutdown flag before the next `while` check.  The loop emits a trace
of actions: attempts made and `asyncio.sleep` waits performed.
-/

/-- One environment event driving one iteration of the reconnect loop. -/
inductive LoopEvent where
  | shutdownReq
  | attempt (o : ConnectOutcome)
  | bodyRaisesOther
  deriving DecidableEq

/-- Observable actions of the reconnect loop: a call to
`connect_and_start_tasks`, and an `await asyncio.sleep(n)`. -/
inductive LoopAction where
  | attempted (o : ConnectOutcome)
  | slept (n : Nat)
  deriving DecidableEq

/-- The `while not self._is_connected and not self._shutting_down` loop of
`_reconnect_cooldown_and_attempt` (`websocket.py` lines 257-276): attempt
`connect_and_start_tasks`; a `True` return breaks out of the loop with no
sleep; a raised `ConnectionError` (line 266) or any other exception
(line 271) is logged, after which the loop sleeps `RECONNECT_INTERVAL`
seconds and re-checks its condition; a `False` return also falls through
to the sleep.  The event list bounds how many iterations are observed. -/
def reconnectLoopGo : WSState → List LoopEvent → WSState × List LoopAction
  | s, [] => (s, [])
  | s, e :: evs =>
    if s._is_connected || s._shutting_down then (s, [])
    else
      match e with
      | LoopEvent.shutdownReq =>
        reconnectLoopGo { s with _shutting_down := true } evs
      | LoopEvent.bodyRaisesOther =>
        let r := reconnectLoopGo s evs
        (r.1, LoopAction.slept RECONNECT_INTERVAL :: r.2)
      | LoopEvent.attempt o =>
        let c := connect_and_start_tasks s o
        match c.2 with
        | ConnectResult.returnedTrue => (c.1, [LoopAction.attempted o])
        | ConnectResult.returnedFalse =>
          let r := reconnectLoopGo c.1 evs
          (r.1, LoopAction.attempted o ::
            LoopAction.slept RECONNECT_INTERVAL :: r.2)
        | ConnectResult.raisedConnectionError =>
          let r := reconnectLoopGo c.1 evs
          (r.1, LoopAction.attempted o ::
            LoopAction.slept RECONNECT_INTERVAL :: r.2)

/-- `MyWebSocket._reconnect_cooldown_and_attempt` (`websocket.py`
lines 241-281) seen by a single task: the early shutdown return
(line 246), the already-reconnected check after taking the lock
(line 252), then the persistent loop.  The inter-task effect of
`_reconnect_lock` itself is modelled separately by `LockSys`. -/
def _reconnect_cooldown_and_attempt (s : WSState) (evs : List LoopEvent) :
    WSState × List LoopAction :=
  if s._shutting_down then (s, [])
  else if s._is_connected then (s, [])
  else reconnectLoopGo s evs

/-- Number of connection attempts recorded in a loop trace. -/
def countAttempts : List LoopAction → Nat
  | [] => 0
  | LoopAction.attempted _ :: tr => countAttempts tr + 1
  | LoopAction.slept _ :: tr => countAttempts tr

-- Helper lemmas for the reconnect loop.

theorem reconnectLoopGo_halt (s : WSState) (evs : List LoopEvent)
    (h : (s._is_connected || s._shutting_down) = true) :
    reconnectLoopGo s evs = (s, []) := by
  cases evs with
  | nil => rfl
  | cons e evs => unfold reconnectLoopGo; simp [h]

theorem reconnectLoopGo_shutdown (s : WSState) (evs : List LoopEvent)
    (h : s._shutting_down = true) : reconnectLoopGo s evs = (s, []) := by
  exact reconnectLoopGo_halt s evs (by simp [h])

theorem reconnectLoopGo_sleeps_fixed (evs : List LoopEvent) :
    ∀ (s : WSState) (n : Nat),
      LoopAction.slept n ∈ (reconnectLoopGo s evs).2 →
      n = RECONNECT_INTERVAL := by
  induction evs with
  | nil => intro s n h; simp [reconnectLoopGo] at h
  | cons e evs ih =>
    intro s n h
    unfold reconnectLoopGo at h
    by_cases hg : (s._is_connected || s._shutting_down) = true
    · simp [hg] at h
    · simp only [hg, if_false] at h
      rw [Bool.not_eq_true] at hg
      cases e with
      | shutdownReq =>
        simp only [Bool.false_eq_true, if_false] at h
        exact ih _ n h
      | bodyRaisesOther =>
        simp only [Bool.false_eq_true, if_false, List.mem_cons] at h
        rcases h with h | h
        · cases h; rfl
        · exact ih _ n h
      | attempt o =>
        simp only [Bool.false_eq_true, if_false] at h
        cases hc : (connect_and_start_tasks s o).2 with
        | returnedTrue => rw [hc] at h; simp at h
        | returnedFalse =>
          rw [hc] at h
          simp only [List.mem_cons] at h
          rcases h with h | h | h
          · cases h
          · cases h; rfl
          · exact ih _ n h
        | raisedConnectionError =>
          rw [hc] at h
          simp only [List.mem_cons] at h
          rcases h with h | h | h
          · cases h
          · cases h; rfl
          · exact ih _ n h

theorem connect_fail_state (s : WSState)
    (hc : s._is_connected = false) (hs : s._shutting_down = false) :
    connect_and_start_tasks s ConnectOutcome.typedError =
      (_cleanup_connection_resources s,
        ConnectResult.raisedConnectionError) := by
  simp [connect_and_start_tasks, hc, hs]

theorem reconnectLoopGo_all_failures (n : Nat) :
    ∀ (s : WSState), s._is_connected = false → s._shutting_down = false →
      countAttempts (reconnectLoopGo s
        (List.replicate n (LoopEvent.attempt ConnectOutcome.typedError))).2
        = n := by
  induction n with
  | zero => intro s hc hs; simp [reconnectLoopGo, countAttempts]
  | succ n ih =>
    intro s hc hs
    rw [List.replicate_succ]
    unfold reconnectLoopGo
    simp only [hc, hs, Bool.or_self, Bool.false_eq_true, if_false]
    rw [connect_fail_state s hc hs]
    simp only []
    have := ih (_cleanup_connection_resources s)
      (by simp [_cleanup_connection_resources])
      (by simp [_cleanup_connection_resources, hs])
    simp [countAttempts, this]

/-- C2: the reconnect loop runs only while not connected and not shutting
down; a successful `connect()` breaks out (single attempt, no sleep); a
typed `ConnectionError` is followed by a fixed `RECONNECT_INTERVAL = 5`
second sleep and a retry; any sleep the loop ever performs is exactly
`RECONNECT_INTERVAL` seconds (no exponential growth, no jitter); there
is no attempt cap (n consecutive failures yield n attempts, with the
loop still live); and an unexpected non-`ConnectionError` exception in
the body is absorbed — the loop sleeps and continues instead of
crashing.  The value 5 for `RECONNECT_INTERVAL` is modelled from the
spec, since `const.py` omits the constant. -/
theorem C2_reconnect_loop :
    RECONNECT_INTERVAL = 5 ∧
    (∀ (s : WSState) (evs : List LoopEvent),
      (s._is_connected || s._shutting_down) = true →
      reconnectLoopGo s evs = (s, [])) ∧
    (∀ (s : WSState) (evs : List LoopEvent) (n : Nat),
      LoopAction.slept n ∈ (reconnectLoopGo s evs).2 →
      n = RECONNECT_INTERVAL) ∧
    (∀ (s : WSState) (evs : List LoopEvent),
      s._is_connected = false → s._shutting_down = false →
      reconnectLoopGo s (LoopEvent.attempt ConnectOutcome.success :: evs) =
        ((connect_and_start_tasks s ConnectOutcome.success).1,
          [LoopAction.attempted ConnectOutcome.success]) ∧
      (connect_and_start_tasks s ConnectOutcome.success).1._is_connected
        = true) ∧
    (∀ (s : WSState) (evs : List LoopEvent),
      s._is_connected = false → s._shutting_down = false →
      reconnectLoopGo s
          (LoopEvent.attempt ConnectOutcome.typedError :: evs) =
        ((reconnectLoopGo (_cleanup_connection_resources s) evs).1,
          LoopAction.attempted ConnectOutcome.typedError ::
            LoopAction.slept RECONNECT_INTERVAL ::
            (reconnectLoopGo (_cleanup_connection_resources s) evs).2)) ∧
    (∀ (s : WSState) (evs : List LoopEvent),
      s._is_connected = false → s._shutting_down = false →
      reconnectLoopGo s (LoopEvent.bodyRaisesOther :: evs) =
        ((reconnectLoopGo s evs).1,
          LoopAction.slept RECONNECT_INTERVAL ::
            (reconnectLoopGo s evs).2)) ∧
    (∀ (n : Nat) (s : WSState),
      s._is_connected = false → s._shutting_down = false →
      countAttempts (reconnectLoopGo s
        (List.replicate n (LoopEvent.attempt ConnectOutcome.typedError))).2
        = n) := by
  refine ⟨rfl, reconnectLoopGo_halt,
    fun s evs n h => reconnectLoopGo_sleeps_fixed evs s n h, ?_, ?_, ?_,
    fun n s hc hs => reconnectLoopGo_all_failures n s hc hs⟩
  · intro s evs hc hs
    constructor
    · unfold reconnectLoopGo
      simp only [hc, hs, Bool.or_self, Bool.false_eq_true, if_false]
      simp [connect_and_start_tasks, hc, hs]
    · simp [connect_and_start_tasks, hc, hs]
  · intro s evs hc hs
    conv_lhs => unfold reconnectLoopGo
    simp only [hc, hs, Bool.or_self, Bool.false_eq_true, if_false]
    rw [connect_fail_state s hc hs]
  · intro s evs hc hs
    conv_lhs => unfold reconnectLoopGo
    simp only [hc, hs, Bool.or_self, Bool.false_eq_true, if_false]

/-- Witness for C2, mirroring the spec's Scenario E shape: three typed
failures then a success give four attempts with three fixed 5 second
sleeps before the loop exits connected. -/
theorem C2_reconnect_loop_witness :
    reconnectLoopGo ⟨false, false, false, false, [], true, false⟩
        (LoopEvent.attempt ConnectOutcome.typedError ::
         LoopEvent.attempt ConnectOutcome.typedError ::
         LoopEvent.attempt ConnectOutcome.typedError ::
         [LoopEvent.attempt ConnectOutcome.success]) =
      (⟨true, true, true, true, [], true, false⟩,
        [LoopAction.attempted ConnectOutcome.typedError,
         LoopAction.slept 5,
         LoopAction.attempted ConnectOutcome.typedError,
         LoopAction.slept 5,
         LoopAction.attempted ConnectOutcome.typedError,
         LoopAction.slept 5,
         LoopAction.attempted ConnectOutcome.success]) ∧
    countAttempts (reconnectLoopGo
        ⟨false, false, false, false, [], true, false⟩
        (List.replicate 3
          (LoopEvent.attempt ConnectOutcome.typedError))).2 = 3 ∧
    RECONNECT_INTERVAL = 5 := by
  refine ⟨by rfl, C2_reconnect_loop.2.2.2.2.2.2 3
      ⟨false, false, false, false, [], true, false⟩ rfl rfl,
    C2_reconnect_loop.1⟩

-- Once the shutdown flag is observed, the loop stops: events after a
-- shutdown request contribute no further attempts or sleeps.

theorem reconnectLoopGo_shutdownReq_stops (pre : List LoopEvent) :
    ∀ (s : WSState) (post : List LoopEvent),
      reconnectLoopGo s (pre ++ LoopEvent.shutdownReq :: post) =
        reconnectLoopGo s (pre ++ [LoopEvent.shutdownReq]) := by
  induction pre with
  | nil =>
    intro s post
    simp only [List.nil_append]
    by_cases hg : (s._is_connected || s._shutting_down) = true
    · rw [reconnectLoopGo_halt s _ hg, reconnectLoopGo_halt s _ hg]
    · rw [Bool.not_eq_true] at hg
      conv_lhs => unfold reconnectLoopGo
      conv_rhs => unfold reconnectLoopGo
      simp only [hg, Bool.false_eq_true, if_false]
      rw [reconnectLoopGo_shutdown _ post (by simp),
        reconnectLoopGo_shutdown _ [] (by simp)]
  | cons e pre ih =>
    intro s post
    simp only [List.cons_append]
    by_cases hg : (s._is_connected || s._shutting_down) = true
    · rw [reconnectLoopGo_halt s _ hg, reconnectLoopGo_halt s _ hg]
    · rw [Bool.not_eq_true] at hg
      conv_lhs => unfold reconnectLoopGo
      conv_rhs => unfold reconnectLoopGo
      simp only [hg, Bool.false_eq_true, if_false]
      cases e with
      | shutdownReq => exact ih _ post
      | bodyRaisesOther =>
        dsimp only
        rw [ih s post]
      | attempt o =>
        dsimp only
        cases hc2 : (connect_and_start_tasks s o).2 with
        | returnedTrue => rfl
        | returnedFalse =>
          dsimp only
          rw [ih _ post]
        | raisedConnectionError =>
          dsimp only
          rw [ih _ post]

theorem _handle_disconnect_flag (s : WSState) :
    (_handle_disconnect s).1._shutting_down = s._shutting_down := by
  unfold _handle_disconnect _schedule_reconnect
  by_cases hc : s._is_connected
  · by_cases hs : s._shutting_down
    · simp [hc, hs]
    · by_cases hh : s.hass <;> simp [hc, hs, hh]
  · simp [hc]

/-- C7: with the shutdown flag set, `_schedule_reconnect` creates no
task, a freshly scheduled `_reconnect_cooldown_and_attempt` returns at
once, an in-flight reconnect loop exits at its next check so that events
after the shutdown request produce no further attempts, and
`connect_and_start_tasks` returns `False` without opening anything.
The flag itself is preserved by every modelled operation — only
explicit teardown (`clear`) sets it and nothing resets it. -/
theorem C7_shutdown_halts_reconnects :
    (∀ (s : WSState), s._shutting_down = true →
      _schedule_reconnect s = (s, false)) ∧
    (∀ (s : WSState) (evs : List LoopEvent), s._shutting_down = true →
      _reconnect_cooldown_and_attempt s evs = (s, [])) ∧
    (∀ (s : WSState) (pre post : List LoopEvent),
      reconnectLoopGo s (pre ++ LoopEvent.shutdownReq :: post) =
        reconnectLoopGo s (pre ++ [LoopEvent.shutdownReq])) ∧
    (∀ (s : WSState) (o : ConnectOutcome), s._shutting_down = true →
      s._is_connected = false →
      connect_and_start_tasks s o = (s, ConnectResult.returnedFalse)) ∧
    (∀ (s : WSState) (o : ConnectOutcome),
      (connect_and_start_tasks s o).1._shutting_down = s._shutting_down) ∧
    (∀ (s : WSState) (o : SendOutcome),
      (send_message s o).1._shutting_down = s._shutting_down) ∧
    (∀ (L : String → JsonLoadResult) (s : WSState) (m : String),
      (receiveFrameStep L s m).1._shutting_down = s._shutting_down) ∧
    (∀ (s : WSState),
      (_handle_disconnect s).1._shutting_down = s._shutting_down) ∧
    (∀ (s : WSState) (evs : List LoopEvent), s._shutting_down = true →
      (reconnectLoopGo s evs).1._shutting_down = true) ∧
    (∀ (s : WSState), (clear s)._shutting_down = true) := by
  refine ⟨?_, ?_, fun s pre post =>
      reconnectLoopGo_shutdownReq_stops pre s post, ?_, ?_, ?_, ?_, ?_,
      ?_, ?_⟩
  · intro s h; simp [_schedule_reconnect, h]
  · intro s evs h; simp [_reconnect_cooldown_and_attempt, h]
  · intro s o hs hc
    cases o <;> simp [connect_and_start_tasks, hs, hc]
  · intro s o
    by_cases hc : s._is_connected
    · simp [connect_and_start_tasks, hc]
    · by_cases hs : s._shutting_down
      · simp [connect_and_start_tasks, hc, hs]
      · cases o <;>
          simp [connect_and_start_tasks, hc, hs,
            _cleanup_connection_resources]
  · intro s o
    unfold send_message
    by_cases hg : (s._is_connected && s.ws) = true
    · simp only [hg, Bool.not_true, Bool.false_eq_true, if_false]
      cases o with
      | sent => simp [send_messageTry]
      | connectionClosed =>
        simpa [send_messageTry] using _handle_disconnect_flag s
      | otherError =>
        simpa [send_messageTry] using _handle_disconnect_flag s
    · rw [Bool.not_eq_true] at hg
      simp [hg]
  · intro L s m
    unfold receiveFrameStep
    cases handle_message L s._latest_raw_data m with
    | ok d => rfl
    | error e => exact _handle_disconnect_flag s
  · intro s
    exact _handle_disconnect_flag s
  · intro s evs h
    rw [reconnectLoopGo_shutdown s evs h]
    exact h
  · intro s; simp [clear, _cleanup_connection_resources]

/-- Witness for C7 at concrete states: a shut-down supervisor schedules
nothing and refuses to connect, and an in-flight loop given a shutdown
request ignores every later event. -/
theorem C7_shutdown_halts_reconnects_witness :
    _schedule_reconnect ⟨false, false, false, false, [], true, true⟩ =
      (⟨false, false, false, false, [], true, true⟩, false) ∧
    connect_and_start_tasks ⟨false, false, false, false, [], true, true⟩
        ConnectOutcome.success =
      (⟨false, false, false, false, [], true, true⟩,
        ConnectResult.returnedFalse) ∧
    reconnectLoopGo ⟨false, false, false, false, [], true, false⟩
        ([LoopEvent.attempt ConnectOutcome.typedError] ++
          LoopEvent.shutdownReq ::
            [LoopEvent.attempt ConnectOutcome.success]) =
      reconnectLoopGo ⟨false, false, false, false, [], true, false⟩
        ([LoopEvent.attempt ConnectOutcome.typedError] ++
          [LoopEvent.shutdownReq]) := by
  refine ⟨C7_shutdown_halts_reconnects.1
      ⟨false, false, false, false, [], true, true⟩ rfl,
    C7_shutdown_halts_reconnects.2.2.2.1
      ⟨false, false, false, false, [], true, true⟩
      ConnectOutcome.success rfl rfl,
    C7_shutdown_halts_reconnects.2.2.1
      ⟨false, false, false, false, [], true, false⟩
      [LoopEvent.attempt ConnectOutcome.typedError]
      [LoopEvent.attempt ConnectOutcome.success]⟩

-- Helper lemmas for C9.

theorem handle_message_total (L : String → JsonLoadResult) (d : PyDict)
    (m : String) : ∃ d', handle_message L d m = Except.ok d' := by
  unfold handle_message
  by_cases hok : (pyStripLower m == "ok") = true
  · exact ⟨d, by simp [hok]⟩
  · cases h : handle_messageTry L d m with
    | ok d' => exact ⟨d', by simp [hok, h]⟩
    | error e => cases e <;> exact ⟨d, by simp [hok, h]⟩

/-- C9: `handle_message` is total — it returns normally on every input
string (each raised exception is consumed by the handler clauses at
lines 199 and 202).  The "ok" literal (case-insensitive,
whitespace-trimmed), frames that fail to decode, well-formed JSON whose
top level is not an object (where `data.get` raises `AttributeError`,
caught by `except Exception`), and heartbeat echoes all leave the
snapshot unchanged, and a frame processed in the receive loop never
trips the disconnect path there. -/
theorem C9_handle_message_never_raises :
    (∀ (L : String → JsonLoadResult) (d : PyDict) (m : String),
      ∃ d', handle_message L d m = Except.ok d') ∧
    (∀ (L : String → JsonLoadResult) (d : PyDict) (m : String),
      pyStripLower m = "ok" → handle_message L d m = Except.ok d) ∧
    (∀ (L : String → JsonLoadResult) (d : PyDict) (m : String),
      L m = JsonLoadResult.decodeError →
      handle_message L d m = Except.ok d) ∧
    (∀ (L : String → JsonLoadResult) (d : PyDict) (m : String)
      (v : PyVal), L m = JsonLoadResult.ok v →
      (∀ d0 : PyDict, v ≠ PyVal.obj d0) →
      handle_message L d m = Except.ok d) ∧
    (∀ (L : String → JsonLoadResult) (d : PyDict) (m : String)
      (o : PyDict), L m = JsonLoadResult.ok (PyVal.obj o) →
      isHeartBeatVal (dictGet o ("ModeCode")) = true →
      handle_message L d m = Except.ok d) ∧
    (∀ (L : String → JsonLoadResult) (s : WSState) (m : String),
      (receiveFrameStep L s m).2 = false ∧
      (receiveFrameStep L s m).1._is_connected = s._is_connected ∧
      (receiveFrameStep L s m).1.ws = s.ws) := by
  refine ⟨handle_message_total, ?_, ?_, ?_, ?_, ?_⟩
  · intro L d m h
    unfold handle_message
    simp [h]
  · intro L d m h
    unfold handle_message
    by_cases hok : (pyStripLower m == "ok") = true
    · simp [hok]
    · simp [hok, handle_messageTry, h]
  · intro L d m v hv hno
    unfold handle_message
    by_cases hok : (pyStripLower m == "ok") = true
    · simp [hok]
    · cases v with
      | obj d0 => exact absurd rfl (hno d0)
      | str s0 => simp [hok, handle_messageTry, hv]
      | num n0 => simp [hok, handle_messageTry, hv]
      | boolean b0 => simp [hok, handle_messageTry, hv]
      | null => simp [hok, handle_messageTry, hv]
      | arr l0 => simp [hok, handle_messageTry, hv]
  · intro L d m o hv hb
    unfold handle_message
    by_cases hok : (pyStripLower m == "ok") = true
    · simp [hok]
    · simp [hok, handle_messageTry, hv, hb]
  · intro L s m
    obtain ⟨d', hd⟩ := handle_message_total L s._latest_raw_data m
    unfold receiveFrameStep
    rw [hd]
    exact ⟨rfl, rfl, rfl⟩

/-- Witness for C9: concrete discard inputs — a padded upper-case "OK"
token, malformed text, a JSON array, a bare number, and a heartbeat
echo — all leave a concrete snapshot untouched, applying the theorem
with every hypothesis discharged by evaluation. -/
theorem C9_handle_message_never_raises_witness :
    handle_message demoLoads [("state", PyVal.num 1)] ("  OK ") =
      Except.ok [("state", PyVal.num 1)] ∧
    handle_message demoLoads [("state", PyVal.num 1)] ("not json") =
      Except.ok [("state", PyVal.num 1)] ∧
    handle_message demoLoads [("state", PyVal.num 1)] ("[1, 2]") =
      Except.ok [("state", PyVal.num 1)] ∧
    handle_message demoLoads [("state", PyVal.num 1)] ("5") =
      Except.ok [("state", PyVal.num 1)] ∧
    handle_message demoLoads [("state", PyVal.num 1)]
        ("\x7b\"ModeCode\": \"heart_beat\", \"msg\": 1\x7d") =
      Except.ok [("state", PyVal.num 1)] := by
  refine ⟨C9_handle_message_never_raises.2.1 demoLoads
      [("state", PyVal.num 1)] ("  OK ") (by rfl),
    C9_handle_message_never_raises.2.2.1 demoLoads
      [("state", PyVal.num 1)] ("not json") (by rfl),
    C9_handle_message_never_raises.2.2.2.1 demoLoads
      [("state", PyVal.num 1)] ("[1, 2]")
      (PyVal.arr [PyVal.num 1, PyVal.num 2]) (by rfl)
      (fun d0 h => by cases h),
    C9_handle_message_never_raises.2.2.2.1 demoLoads
      [("state", PyVal.num 1)] ("5") (PyVal.num 5) (by rfl)
      (fun d0 h => by cases h),
    C9_handle_message_never_raises.2.2.2.2.1 demoLoads
      [("state", PyVal.num 1)]
      ("\x7b\"ModeCode\": \"heart_beat\", \"msg\": 1\x7d")
      [("ModeCode", PyVal.str ("heart_beat")), ("msg", PyVal.num 1)]
      (by rfl) (by rfl)⟩

/-!
The polling adapter: `CrealityK1DataUpdateCoordinator` in
`coordinator.py`, created by `async_setup_entry` in `__init__.py` with
`update_interval=timedelta(seconds=5)` (line 46).
-/

/-- Poll interval, in seconds, passed to the coordinator constructor in
`__init__.py` lines 43-47. -/
def coordinatorUpdateIntervalSeconds : Nat := 5

/-- Constant `HASS_UPDATE_INTERVAL` from `const.py` line 13; defined
there but not referenced by `async_setup_entry`. -/
def HASS_UPDATE_INTERVAL : Nat := 30

/-- State owned by the coordinator: its `MyWebSocket` and the processed
`latest_data` dictionary (`coordinator.py` lines 28 and 35). -/
structure CoordState where
  websocket : WSState
  latest_data : PyDict

/-- `MyWebSocket.get_latest_data` (`websocket.py` lines 290-292): returns
a copy of `_latest_raw_data`; it has no raising operation. -/
def get_latest_data (s : WSState) : Except PyExc PyDict :=
  Except.ok s._latest_raw_data

/-- `CrealityK1DataUpdateCoordinator.process_raw_data` (`coordinator.py`
lines 56-63): copy the stored data and overwrite it with the raw data. -/
def process_raw_data (raw stored : PyDict) : PyDict := dictUpdate stored raw

/-- Result of one `_async_update_data` call. -/
inductive UpdateOutcome where
  | ok (d : PyDict)
  | updateFailed

/-- `CrealityK1DataUpdateCoordinator._async_update_data`
(`coordinator.py` lines 37-54).  The boolean records whether
`self.websocket.connect()` was invoked: that happens only inside the
`except websockets.exceptions.ConnectionClosedError` handler (line 50),
which is unreachable because `get_latest_data` always returns normally
(and `MyWebSocket` does not even define a `connect` method).  On the
normal path, a non-empty raw dictionary is merged into `latest_data`
with `process_raw_data` and the result is returned; an empty one leaves
`latest_data` as it is (`if raw_data:` at line 43). -/
def _async_update_data (c : CoordState) : CoordState × UpdateOutcome × Bool :=
  match get_latest_data c.websocket with
  | Except.ok raw =>
    let nd := if raw.isEmpty then c.latest_data
      else process_raw_data raw c.latest_data
    ({ c with latest_data := nd }, UpdateOutcome.ok nd, false)
  | Except.error PyExc.connectionClosed =>
    (c, UpdateOutcome.updateFailed, true)
  | Except.error _ => (c, UpdateOutcome.updateFailed, false)

/-- Counterexample to C4 as stated: with the supervisor disconnected,
`_async_update_data` neither attempts `connect()` nor signals a fetch
failure — it happily returns the last-known data; moreover the poll
interval configured in `__init__.py` is 5 seconds, not 30. -/
theorem C4_poll_claim_false :
    WSState._is_connected
      ⟨false, false, false, false, [("bedTemp0", PyVal.num 61)], true,
        false⟩ = false ∧
    (_async_update_data
      ⟨⟨false, false, false, false, [("bedTemp0", PyVal.num 61)], true,
        false⟩, []⟩).2.2 = false ∧
    (_async_update_data
      ⟨⟨false, false, false, false, [("bedTemp0", PyVal.num 61)], true,
        false⟩, []⟩).2.1 =
      UpdateOutcome.ok [("bedTemp0", PyVal.num 61)] ∧
    (UpdateOutcome.ok [("bedTemp0", PyVal.num 61)] ≠
      UpdateOutcome.updateFailed) ∧
    coordinatorUpdateIntervalSeconds ≠ 30 := by
  refine ⟨rfl, rfl, rfl, fun h => UpdateOutcome.noConfusion h, by decide⟩

/-- C4 (amended): on every poll (5 seconds as configured in
`async_setup_entry`; `HASS_UPDATE_INTERVAL = 30` exists in `const.py`
but is unused there), `_async_update_data` reads the supervisor's
snapshot without checking or restoring connectivity, merges a non-empty
snapshot into the coordinator's stored data (last-write-wins), and
returns it successfully; the recoverable-failure branch that would call
`websocket.connect()` is unreachable, so a disconnected supervisor still
yields a successful fetch of last-known data. -/
theorem C4_poll_reads_without_ensuring_connection :
    ∀ (c : CoordState),
      _async_update_data c =
        ({ c with latest_data :=
            (if c.websocket._latest_raw_data.isEmpty then c.latest_data
             else process_raw_data c.websocket._latest_raw_data
               c.latest_data) },
         UpdateOutcome.ok
           (if c.websocket._latest_raw_data.isEmpty then c.latest_data
            else process_raw_data c.websocket._latest_raw_data
              c.latest_data),
         false) ∧
      coordinatorUpdateIntervalSeconds = 5 ∧ HASS_UPDATE_INTERVAL = 30 := by
  intro c
  exact ⟨rfl, rfl, rfl⟩

/-!
Entity availability: `K1Sensor.available` in `sensor.py` lines 69-71
reads `self.coordinator.websocket.is_connected`, but `MyWebSocket` binds
only `_is_connected` (`websocket.py` line 23) and defines no
`is_connected` attribute or property, so the lookup raises
`AttributeError` on every call.
-/

/-- Attribute names bound on a `MyWebSocket` instance: the instance
fields assigned in `__init__` (`websocket.py` lines 17-27) and the
methods defined on the class body. -/
def myWebSocketAttrs : List String :=
  ["url", "ws", "heartbeat_task", "receive_task", "_is_connected",
   "_latest_raw_data", "hass", "_reconnect_lock", "_shutting_down",
   "init", "connect_and_start_tasks", "_cleanup_connection_resources",
   "_send_heartbeat_loop", "_receive_messages_loop", "handle_message",
   "send_message", "_handle_disconnect", "_schedule_reconnect",
   "_reconnect_cooldown_and_attempt", "clear", "get_latest_data"]

/-- Python attribute lookup success on a `MyWebSocket` instance. -/
def myWebSocketHasAttr (name : String) : Bool :=
  myWebSocketAttrs.contains name

/-- `K1Sensor.available` (`sensor.py` lines 69-71):
`self.coordinator.websocket.is_connected and super().available`.  If the
attribute existed the intended boolean would be read; since it does not,
the attribute access raises `AttributeError`. -/
def K1Sensor_available (s : WSState) (superAvailable : Bool) :
    Except PyExc Bool :=
  if myWebSocketHasAttr ("is_connected") then
    Except.ok (s._is_connected && superAvailable)
  else Except.error PyExc.attributeError

/-- C10: the availability check never returns the boolean the claim
describes — `MyWebSocket` exposes `_is_connected` but no `is_connected`,
so `K1Sensor.available` raises `AttributeError` for every supervisor
state, connected or not, instead of reporting unavailable. -/
theorem C10_available_raises_attribute_error :
    (∀ (s : WSState) (b : Bool),
      K1Sensor_available s b = Except.error PyExc.attributeError) ∧
    myWebSocketHasAttr ("is_connected") = false ∧
    myWebSocketHasAttr ("_is_connected") = true := by
  exact ⟨fun s b => rfl, rfl, rfl⟩

/-!
Mutual exclusion of reconnect sessions.  Both the heartbeat task and the
receive task can detect a disconnect and call `_handle_disconnect`, each
spawning a `_reconnect_cooldown_and_attempt` task.  The two spawned
tasks are modelled as an interleaved transition system over the shared
`asyncio.Lock` (`self._reconnect_lock`, `websocket.py` line 26), the
connected flag and the shutdown flag.
-/

/-- Program counter of one task executing
`_reconnect_cooldown_and_attempt` (`websocket.py` lines 241-281): before
the shutdown check (line 246); blocked on `async with
self._reconnect_lock` (line 250); holding the lock at the
already-reconnected check (line 252); executing the retry-loop body
(lines 257-276); returned, with the lock released. -/
inductive TaskPC where
  | start
  | wantLock
  | critEntry
  | crit
  | exited
  deriving DecidableEq, Fintype

/-- Shared state of the two scheduled reconnect tasks (`true` names the
heartbeat-spawned task, `false` the receive-spawned one), the lock
owner, and the flags the loop consults. -/
structure LockSys where
  pcA : TaskPC
  pcB : TaskPC
  lockOwner : Option Bool
  connected : Bool
  shuttingDown : Bool
  deriving DecidableEq, Fintype

/-- Program counter of task `t`. -/
def pcOf (s : LockSys) (t : Bool) : TaskPC := if t then s.pcA else s.pcB

/-- Replace the program counter of task `t`. -/
def setPc (s : LockSys) (t : Bool) (pc : TaskPC) : LockSys :=
  if t then { s with pcA := pc } else { s with pcB := pc }

/-- Atomic interleaving actions: one task advancing one step through
`_reconnect_cooldown_and_attempt`, or the environment flipping the
connected flag (a connect or disconnect elsewhere) or setting the
shutdown flag (`clear()`). -/
inductive Act where
  | startCheck (t : Bool)
  | acquire (t : Bool)
  | connCheck (t : Bool)
  | loopIter (t : Bool) (success : Bool)
  | loopExit (t : Bool)
  | envSetConn (b : Bool)
  | envShutdown
  deriving DecidableEq, Fintype

/-- One interleaved step; `none` when the action is not enabled (in
particular, `acquire` blocks while the lock is held — the `async with`
semantics). -/
def stepAct (s : LockSys) : Act → Option LockSys
  | Act.startCheck t =>
    if pcOf s t = TaskPC.start then
      some (setPc s t
        (if s.shuttingDown then TaskPC.exited else TaskPC.wantLock))
    else Option.none
  | Act.acquire t =>
    if pcOf s t = TaskPC.wantLock ∧ s.lockOwner = Option.none then
      let s1 := setPc s t TaskPC.critEntry
      some { s1 with lockOwner := some t }
    else Option.none
  | Act.connCheck t =>
    if pcOf s t = TaskPC.critEntry then
      if s.connected then
        let s1 := setPc s t TaskPC.exited
        some { s1 with lockOwner := Option.none }
      else some (setPc s t TaskPC.crit)
    else Option.none
  | Act.loopIter t success =>
    if pcOf s t = TaskPC.crit ∧ s.connected = false ∧
        s.shuttingDown = false then
      some { s with connected := success }
    else Option.none
  | Act.loopExit t =>
    if pcOf s t = TaskPC.crit ∧
        (s.connected = true ∨ s.shuttingDown = true) then
      let s1 := setPc s t TaskPC.exited
      some { s1 with lockOwner := Option.none }
    else Option.none
  | Act.envSetConn b => some { s with connected := b }
  | Act.envShutdown => some { s with shuttingDown := true }

/-- Run a schedule of actions; `none` when some action was not enabled. -/
def runSys (s : LockSys) : List Act → Option LockSys
  | [] => some s
  | a :: as =>
    match stepAct s a with
    | some s1 => runSys s1 as
    | Option.none => Option.none

/-- Lock discipline: a task at the connected check or inside the retry
body holds the lock. -/
def LockInv (s : LockSys) : Prop :=
  ((s.pcA = TaskPC.critEntry ∨ s.pcA = TaskPC.crit) →
    s.lockOwner = some true) ∧
  ((s.pcB = TaskPC.critEntry ∨ s.pcB = TaskPC.crit) →
    s.lockOwner = some false)

instance (s : LockSys) : Decidable (LockInv s) := by
  unfold LockInv
  infer_instance

set_option maxRecDepth 8192 in
theorem stepAct_preserves_LockInv :
    ∀ (s : LockSys) (a : Act), LockInv s →
      LockInv ((stepAct s a).getD s) := by decide

theorem runSys_preserves_LockInv (acts : List Act) :
    ∀ (s s' : LockSys), LockInv s → runSys s acts = some s' →
      LockInv s' := by
  induction acts with
  | nil =>
    intro s s' h hr
    have hs : s = s' := Option.some.inj hr
    exact hs ▸ h
  | cons a as ih =>
    intro s s' h hr
    unfold runSys at hr
    cases hstep : stepAct s a with
    | none => rw [hstep] at hr; cases hr
    | some s1 =>
      rw [hstep] at hr
      have h1 : LockInv s1 := by
        have hp := stepAct_preserves_LockInv s a h
        rw [hstep] at hp
        exact hp
      exact ih s1 s' h1 hr

set_option maxRecDepth 8192 in
/-- C5: from any initial state with both reconnect tasks at their entry
point and the lock free, no interleaved schedule ever has both tasks
inside the retry body at the same time; and a task that reaches the
post-lock check while a reconnection has already succeeded
(`connected = true`) moves straight to exit, releasing the lock, never
into the retry body. -/
theorem C5_reconnect_mutual_exclusion :
    (∀ (s0 : LockSys) (acts : List Act) (s' : LockSys),
      s0.pcA = TaskPC.start → s0.pcB = TaskPC.start →
      s0.lockOwner = Option.none → runSys s0 acts = some s' →
      ¬(s'.pcA = TaskPC.crit ∧ s'.pcB = TaskPC.crit)) ∧
    (∀ (s : LockSys) (t : Bool), pcOf s t = TaskPC.critEntry →
      s.connected = true →
      pcOf ((stepAct s (Act.connCheck t)).getD s) t = TaskPC.exited ∧
      ((stepAct s (Act.connCheck t)).getD s).lockOwner = Option.none) := by
  constructor
  · intro s0 acts s' hA hB hL hr
    have h0 : LockInv s0 := by
      constructor
      · intro hh
        rw [hA] at hh
        rcases hh with hh | hh <;> cases hh
      · intro hh
        rw [hB] at hh
        rcases hh with hh | hh <;> cases hh
    have hinv := runSys_preserves_LockInv acts s0 s' h0 hr
    rintro ⟨ha, hb⟩
    have h1 := hinv.1 (Or.inr ha)
    have h2 := hinv.2 (Or.inr hb)
    rw [h1] at h2
    simp at h2
  · decide

/-- Witness for C5: a concrete race — both tasks are spawned, the first
acquires the lock, reconnects and exits; the second then acquires the
lock, observes `connected = true` and exits without entering the retry
body; mutual exclusion holds at the final state. -/
theorem C5_reconnect_mutual_exclusion_witness :
    runSys ⟨TaskPC.start, TaskPC.start, Option.none, false, false⟩
        [Act.startCheck true, Act.startCheck false, Act.acquire true,
         Act.connCheck true, Act.loopIter true true, Act.loopExit true,
         Act.acquire false, Act.connCheck false] =
      some ⟨TaskPC.exited, TaskPC.exited, Option.none, true, false⟩ ∧
    ¬((TaskPC.exited = TaskPC.crit) ∧ (TaskPC.exited = TaskPC.crit)) := by
  refine ⟨by decide, ?_⟩
  have hrun : runSys ⟨TaskPC.start, TaskPC.start, Option.none, false, false⟩
      [Act.startCheck true, Act.startCheck false, Act.acquire true,
       Act.connCheck true, Act.loopIter true true, Act.loopExit true,
       Act.acquire false, Act.connCheck false] =
      some ⟨TaskPC.exited, TaskPC.exited, Option.none, true, false⟩ := by
    decide
  exact C5_reconnect_mutual_exclusion.1
    ⟨TaskPC.start, TaskPC.start, Option.none, false, false⟩
    [Act.startCheck true, Act.startCheck false, Act.acquire true,
     Act.connCheck true, Act.loopIter true true, Act.loopExit true,
     Act.acquire false, Act.connCheck false]
    ⟨TaskPC.exited, TaskPC.exited, Option.none, true, false⟩
    rfl rfl rfl hrun
